import Mathlib

/-!
Verification of the crawl-orchestration core of the `pierce` price-scraper:
the retry/backoff fetch loop, the token-bucket rate limiter, the per-URL
crawl driver, the bounded-concurrency batch driver, and the disk cache of
fetch results.  Each definition is a shallow embedding of the corresponding
Python function; timestamps are rationals, money amounts are rationals,
external collaborator outcomes (the fetch service, the per-site extraction
step) enter as explicit parameters, and observable effects (rate-limit
waits, fetch calls, backoff sleeps) are recorded in an event trace.
-/

set_option linter.unusedVariables false

namespace PriceScraper

/-- Outcome of one call to the external fetch service
(`firecrawl_app.scrape_url` in `base_crawler.py`): a response marked
successful carrying a payload, a response not marked successful carrying an
error message (the `else` branch of line 97), or a raised exception carrying
its message (the `except` branch of line 114). -/
inductive FetchOutcome (α : Type) where
  | ok (payload : α)
  | unsuccessful (msg : String)
  | exn (msg : String)
  deriving Repr, DecidableEq

/-- Observable events of `_scrape_with_firecrawl`: the single rate-limiter
wait, a call to the external fetch service (tagged with the zero-based
attempt index), and a backoff sleep of the given whole number of seconds. -/
inductive Event where
  | rateLimitWait
  | fetchCall (attempt : Nat)
  | sleep (seconds : Nat)
  deriving Repr, DecidableEq

/-- Whether a fetch outcome is the successful case. -/
def FetchOutcome.isOk {α : Type} : FetchOutcome α → Bool
  | .ok _ => true
  | _ => false

/-- Whether a fetch outcome is the raised-exception case. -/
def FetchOutcome.isExn {α : Type} : FetchOutcome α → Bool
  | .exn _ => true
  | _ => false

/-- The message carried by a failing fetch outcome (`str(last_exception)`
for the exception case, the response's error message for the
unsuccessful-response case; `""` for a success, never consulted there). -/
def FetchOutcome.failMsg {α : Type} : FetchOutcome α → String
  | .ok _ => ""
  | .unsuccessful msg => msg
  | .exn msg => msg

/-- The backoff sleeps of a trace, in order (`wait_time = (2 ** attempt) + 1`
events). -/
def sleepsOf (tr : List Event) : List Nat :=
  tr.filterMap fun e =>
    match e with
    | .sleep s => some s
    | _ => none

/-- The fetch calls of a trace, in order, by attempt index. -/
def fetchesOf (tr : List Event) : List Nat :=
  tr.filterMap fun e =>
    match e with
    | .fetchCall i => some i
    | _ => none

/-- The retry loop of `BaseCrawler._scrape_with_firecrawl`
(`base_crawler.py` lines 84-118), over the list of attempt indices the
Python `for attempt in range(self.max_retries)` walks.  A successful
response returns its payload at once; an unsuccessful response records the
message as `last_exception` and retries immediately; a raised exception
records the message and sleeps `2 ^ attempt + 1` seconds before looping.
When the attempts run out the accumulated `last_exception` is returned as
the error. -/
def scrapeAttempts {α : Type} (outcomes : Nat → FetchOutcome α) :
    List Nat → Option String → List Event × Except (Option String) α
  | [], lastExn => ([], .error lastExn)
  | attempt :: rest, lastExn =>
    match outcomes attempt with
    | .ok payload => ([Event.fetchCall attempt], .ok payload)
    | .unsuccessful msg =>
      let r := scrapeAttempts outcomes rest (some msg)
      (Event.fetchCall attempt :: r.1, r.2)
    | .exn msg =>
      let r := scrapeAttempts outcomes rest (some msg)
      (Event.fetchCall attempt :: Event.sleep (2 ^ attempt + 1) :: r.1, r.2)

/-- The terminal error message composed at `base_crawler.py` lines 121-123:
the base message, with `": " ++ str(last_exception)` appended when a cause
was recorded. -/
def composeScrapeError (url : String) (maxRetries : Nat) (lastExn : Option String) : String :=
  let base := "Failed to scrape " ++ url ++ " with Firecrawl after "
      ++ toString maxRetries ++ " attempts"
  match lastExn with
  | some m => base ++ ": " ++ m
  | none => base

/-- Embedding of `BaseCrawler._scrape_with_firecrawl` (`base_crawler.py`
lines 80-125).  `outcomes i` is what the external fetch service does on the
i-th call for this URL.  Returns the event trace (the rate-limiter wait of
line 82, then the loop's fetch calls and sleeps) and either the converted
response payload or the raised terminal exception's message.
`self.max_retries` is fixed at 3 (line 62). -/
def scrape_with_firecrawl {α : Type} (outcomes : Nat → FetchOutcome α) (url : String) :
    List Event × Except String α :=
  let maxRetries := 3
  let run := scrapeAttempts outcomes (List.range maxRetries) none
  (Event.rateLimitWait :: run.1,
    match run.2 with
    | .ok payload => .ok payload
    | .error lastExn => .error (composeScrapeError url maxRetries lastExn))

/-- State of the token-bucket `RateLimiter` of `rate_limiter.py` (lines
10-25): the configured rate and burst size, the current token count, and
the time of the last refill.  Timestamps and the counts are rationals
(Python floats carry the same arithmetic here, with no rounding in any
quantity the claims touch). -/
structure RateLimiterState where
  requests_per_second : ℚ
  burst_size : ℚ
  tokens : ℚ
  last_refill : ℚ
  deriving Repr, DecidableEq

/-- What one call to `RateLimiter.acquire` does: the state after the call
and the duration slept, `none` when a token was available at once. -/
structure AcquireResult where
  state : RateLimiterState
  waited : Option ℚ
  deriving Repr, DecidableEq

/-- Embedding of `RateLimiter.acquire` (`rate_limiter.py` lines 27-43),
the body that runs under `self._lock` with `now = time.time()`: refill
`elapsed * requests_per_second` tokens capped at `burst_size`, set
`last_refill` to `now`; then either sleep `(1 - tokens) / requests_per_second`
and set the tokens to 0, or consume one token at once. -/
def RateLimiter.acquire (s : RateLimiterState) (now : ℚ) : AcquireResult :=
  let elapsed := now - s.last_refill
  let refilled := min s.burst_size (s.tokens + elapsed * s.requests_per_second)
  if refilled < 1 then
    { state := { s with tokens := 0, last_refill := now },
      waited := some ((1 - refilled) / s.requests_per_second) }
  else
    { state := { s with tokens := refilled - 1, last_refill := now },
      waited := none }

/-- Embedding of `RateLimiter.__init__` (`rate_limiter.py` lines 13-25)
with `now = time.time()`.  The result type allows a raised configuration
error, so that whether construction is rejected is a provable question;
the body only assigns the fields and never raises. -/
def RateLimiter.init (requests_per_second burst_size now : ℚ) :
    Except String RateLimiterState :=
  Except.ok
    { requests_per_second := requests_per_second
      burst_size := burst_size
      tokens := burst_size
      last_refill := now }

/-- State of the fixed-delay `DelayRateLimiter` of `rate_limiter.py`
(lines 63-69). -/
structure DelayRateLimiterState where
  requests_per_second : ℚ
  delay_between_requests : ℚ
  last_request_time : ℚ
  deriving Repr, DecidableEq

/-- Embedding of `DelayRateLimiter.__init__` (`rate_limiter.py` lines
66-69): assigns the fields, `last_request_time = 0.0`, never raises. -/
def DelayRateLimiter.init (requests_per_second delay_between_requests : ℚ) :
    Except String DelayRateLimiterState :=
  Except.ok
    { requests_per_second := requests_per_second
      delay_between_requests := delay_between_requests
      last_request_time := 0 }

/-- The subset of the `Product` dataclass (`models/product.py`) that
`BaseCrawler._validate_product_data` consults: `name`, `url` and the
optional `price` (a `Decimal` in the source, a rational here). -/
structure Product where
  name : String
  url : String
  price : Option ℚ
  deriving Repr, DecidableEq

/-- Python's `str.strip()`: the string with leading and trailing
whitespace characters removed. -/
def pyStrip (s : String) : String :=
  ⟨((s.data.dropWhile Char.isWhitespace).reverse.dropWhile Char.isWhitespace).reverse⟩

/-- Embedding of `BaseCrawler._validate_product_data` (`base_crawler.py`
lines 127-141): `False` for an empty or whitespace-only name (Python
`not product.name or not product.name.strip()`), for an empty URL
(`not product.url`), or for a present negative price; `True` otherwise. -/
def validate_product_data (product : Product) : Bool :=
  if product.name == "" || pyStrip product.name == "" then false
  else if product.url == "" then false
  else
    match product.price with
    | some p => if p < 0 then false else true
    | none => true

/-- The `CrawlResult` dataclass (`base_crawler.py` lines 15-22), with the
payload type of `firecrawl_data` as a parameter. -/
structure CrawlResult (α : Type) where
  success : Bool
  product : Option Product := none
  error_message : Option String := none
  retry_count : Nat := 0
  firecrawl_data : Option α := none
  deriving Repr, DecidableEq

/-- The `try` body of `BaseCrawler.crawl_product` (`base_crawler.py` lines
163-183).  The two fallible collaborator calls enter as parameters: `fetch`
is what `_scrape_with_firecrawl(url)` does (`Except.error msg` is a raised
exception with message `msg`), `extract` is what the subclass's
`_extract_product_data` does on the fetched payload.  An `Except.error` of
the whole body is an exception reaching the `except` clause. -/
def crawl_product_body (α : Type) (fetch : Except String α)
    (extract : α → Except String Product) : Except String (CrawlResult α) := do
  let firecrawl_result ← fetch
  let product ← extract firecrawl_result
  if ¬ validate_product_data product then
    pure { success := false
           error_message := some "Product data validation failed"
           firecrawl_data := some firecrawl_result }
  else
    pure { success := true
           product := some product
           firecrawl_data := some firecrawl_result }

/-- Embedding of `BaseCrawler.crawl_product` (`base_crawler.py` lines
156-190): run the `try` body; an exception is caught by the
`except Exception` clause and converted to a failure `CrawlResult` carrying
the exception's message, so the function always returns a result. -/
def crawl_product (α : Type) (fetch : Except String α)
    (extract : α → Except String Product) : CrawlResult α :=
  match crawl_product_body α fetch extract with
  | .ok r => r
  | .error e => { success := false, error_message := some e }

/-- `asyncio.gather`'s result buffer: each task, in the order the scheduler
completes them (`schedule` lists task indices in completion order), writes
its outcome into the slot of its own input position. -/
def fillSlots {β : Type} (outcome : Nat → β) : List Nat → (Nat → Option β) → Nat → Option β
  | [], buf => buf
  | i :: rest, buf =>
    fillSlots outcome rest fun j => if j = i then some (outcome i) else buf j

/-- The outcome of the `crawl_with_semaphore` task for the i-th URL of the
batch (`base_crawler.py` lines 216-218): `crawl url` is what
`self.crawl_product(url)` does for that URL — `Except.error msg` is a task
that raised, which `gather` with `return_exceptions=True` hands back as a
value. -/
def gatherTask (α : Type) (crawl : String → Except String (CrawlResult α))
    (urls : List String) (i : Nat) : Except String (CrawlResult α) :=
  match urls.get? i with
  | some u => crawl u
  | none => Except.error "task index out of range"

/-- The per-slot conversion of the loop at `base_crawler.py` lines 226-235:
a task outcome that is an exception becomes a failure `CrawlResult` with
the exception's message; an ordinary result is kept as is. -/
def settleGathered (α : Type) : Except String (CrawlResult α) → CrawlResult α
  | .ok r => r
  | .error e => { success := false, error_message := some e }

/-- Embedding of `BaseCrawler.crawl_multiple` (`base_crawler.py` lines
207-240).  `max_concurrent` bounds how many tasks are in flight at once;
it and the `schedule` (the order the scheduler happens to complete tasks
in) only affect timing, never which buffer slot a task's result lands in.
A buffer slot no completed task filled is a model artifact (`gather`
always fills every slot) and yields a failure marker. -/
def crawl_multiple (α : Type) (crawl : String → Except String (CrawlResult α))
    (urls : List String) (max_concurrent : Nat) (schedule : List Nat) :
    List (CrawlResult α) :=
  let buf := fillSlots (gatherTask α crawl urls) schedule fun _ => none
  (List.range urls.length).map fun i =>
    match buf i with
    | some outcome => settleGathered α outcome
    | none => { success := false, error_message := some "slot never filled" }

/-- A persisted cache file's parse result: either the record
`{url, cached_at, firecrawl_result}` that `FirecrawlCache.set` writes, or a
file whose content fails to load (a `json.JSONDecodeError`, a missing key,
or a malformed timestamp — the exceptions caught at
`firecrawl_cache.py` line 71). -/
inductive CacheFile (α : Type) where
  | valid (url : String) (cached_at : ℚ) (firecrawl_result : α)
  | corrupt
  deriving Repr, DecidableEq

/-- The `FirecrawlCache` of `firecrawl_cache.py`: the time-to-live and the
cache directory's contents, a map from cache key to file.  `cache_key` is
`_get_cache_key` (the MD5 hex digest of the URL, lines 32-34), carried as a
field: a deterministic function of the URL string. -/
structure FirecrawlCache (α : Type) where
  cache_key : String → String
  ttl : ℚ
  fs : String → Option (CacheFile α)

/-- Embedding of `FirecrawlCache.get` (`firecrawl_cache.py` lines 40-74)
at wall-clock time `now`: absent file reports absent; an expired entry
(`now - cached_at > ttl`) is unlinked and reported absent; an unparseable
entry is unlinked and reported absent; otherwise the stored payload is
returned.  The pair is the returned value and the cache state after the
call (the directory contents may have lost the file). -/
def FirecrawlCache.get {α : Type} (c : FirecrawlCache α) (url : String) (now : ℚ) :
    Option α × FirecrawlCache α :=
  let key := c.cache_key url
  match c.fs key with
  | none => (none, c)
  | some .corrupt =>
    (none, { c with fs := fun k => if k = key then none else c.fs k })
  | some (.valid _ cached_at firecrawl_result) =>
    if c.ttl < now - cached_at then
      (none, { c with fs := fun k => if k = key then none else c.fs k })
    else
      (some firecrawl_result, c)

/-- Embedding of `FirecrawlCache.set` (`firecrawl_cache.py` lines 76-98)
at wall-clock time `now`: writes (or overwrites) the entry at the URL's
cache key with the current timestamp and the payload.  (The `except` at
line 97 only covers the write failing at the operating-system level, which
the model's store does not exhibit.) -/
def FirecrawlCache.set {α : Type} (c : FirecrawlCache α) (url : String) (payload : α)
    (now : ℚ) : FirecrawlCache α :=
  let key := c.cache_key url
  { c with fs := fun k => if k = key then some (.valid url now payload) else c.fs k }

/-- A fetch service that marks every response unsuccessful ("boom"). -/
def allUnsuccessful : Nat → FetchOutcome Unit :=
  fun _ => FetchOutcome.unsuccessful "boom"

/-- A fetch service whose first call returns an unsuccessful response and
whose later calls raise. -/
def mixedFailures : Nat → FetchOutcome Unit :=
  fun i => if i = 0 then FetchOutcome.unsuccessful "a" else FetchOutcome.exn "b"

/-- A per-URL crawl outcome map for a concrete two-URL batch: URL "a"
succeeds, any other URL's task raises. -/
def wBatchCrawl : String → Except String (CrawlResult Unit) :=
  fun u => if u = "a" then Except.ok { success := true } else Except.error "boom"

/-- An empty concrete cache over `Nat` payloads (every URL hashes to key
"k", time-to-live 24). -/
def wCache : FirecrawlCache Nat :=
  { cache_key := fun _ => "k", ttl := 24, fs := fun _ => none }

/-- A concrete cache holding one entry, written at time 0 with payload 7,
under time-to-live 24. -/
def wExpiredCache : FirecrawlCache Nat :=
  { cache_key := fun _ => "k", ttl := 24
    fs := fun k => if k = "k" then some (CacheFile.valid "u" 0 7) else none }

/-- No iteration of the retry loop touches the rate limiter: its event
trace holds fetch calls and backoff sleeps only. -/
lemma rateLimitWait_not_mem_scrapeAttempts (α : Type) (outcomes : Nat → FetchOutcome α) :
    ∀ (attempts : List Nat) (lastExn : Option String),
      Event.rateLimitWait ∉ (scrapeAttempts outcomes attempts lastExn).1 := by
  intro attempts
  induction attempts with
  | nil => intro lastExn; simp [scrapeAttempts]
  | cons a rest ih =>
    intro lastExn
    cases ho : outcomes a <;> simp [scrapeAttempts, ho] <;> exact ih _

/-- A slot whose index some completed task covers (or that the buffer
already holds correctly) ends up holding that task's outcome, whatever the
completion order. -/
lemma fillSlots_mem {β : Type} (outcome : Nat → β) :
    ∀ (sched : List Nat) (buf : Nat → Option β) (i : Nat),
      (buf i = some (outcome i) ∨ i ∈ sched) →
      fillSlots outcome sched buf i = some (outcome i) := by
  intro sched
  induction sched with
  | nil =>
    intro buf i h
    rcases h with h | h
    · simpa [fillSlots] using h
    · simp at h
  | cons a rest ih =>
    intro buf i h
    show fillSlots outcome rest _ i = some (outcome i)
    apply ih
    by_cases hia : i = a
    · left; subst hia; simp
    · rcases h with h | h
      · left; simpa [hia] using h
      · right; rcases List.mem_cons.1 h with h | h
        · exact absurd h hia
        · exact h

/-- Claim C1, as stated, fails on the code: with a fetch service that marks
every response unsuccessful, all three attempts fail yet the retry loop
never sleeps — the backoff of `2 ^ attempt + 1` seconds happens only on the
exception path, not on a response explicitly marked unsuccessful — while the
attempt count and the composed terminal error behave as claimed. -/
theorem C1_backoff_counterexample :
    fetchesOf (scrape_with_firecrawl allUnsuccessful "u").1 = [0, 1, 2]
    ∧ sleepsOf (scrape_with_firecrawl allUnsuccessful "u").1 = []
    ∧ (scrape_with_firecrawl allUnsuccessful "u").2
        = Except.error (composeScrapeError "u" 3 (some "boom")) :=
  ⟨by decide, by decide, rfl⟩

/-- Claim C1 (amended): for a URL whose fetch fails on all attempts, the
external fetch is attempted exactly `max_retries = 3` times; the loop
sleeps `2 ^ attempt + 1` seconds exactly at the attempts that fail by a
raised exception (an unsuccessful response retries with no sleep); and the
terminal failure carries the composed message naming the final underlying
cause (the message of the last attempt's failure). -/
theorem C1_retry_exhaustion_amended (outcomes : Nat → FetchOutcome Unit) (url : String)
    (hfail : ∀ i, i < 3 → (outcomes i).isOk = false) :
    fetchesOf (scrape_with_firecrawl outcomes url).1 = [0, 1, 2]
    ∧ sleepsOf (scrape_with_firecrawl outcomes url).1
        = ((List.range 3).filter fun i => (outcomes i).isExn).map (fun i => 2 ^ i + 1)
    ∧ (scrape_with_firecrawl outcomes url).2
        = Except.error (composeScrapeError url 3 (some ((outcomes 2).failMsg))) := by
  have h0 := hfail 0 (by omega)
  have h1 := hfail 1 (by omega)
  have h2 := hfail 2 (by omega)
  have hr : List.range 3 = [0, 1, 2] := rfl
  rcases ho0 : outcomes 0 with p0 | m0 | m0 <;> rw [ho0] at h0 <;>
    simp [FetchOutcome.isOk] at h0 <;>
  rcases ho1 : outcomes 1 with p1 | m1 | m1 <;> rw [ho1] at h1 <;>
    simp [FetchOutcome.isOk] at h1 <;>
  rcases ho2 : outcomes 2 with p2 | m2 | m2 <;> rw [ho2] at h2 <;>
    simp [FetchOutcome.isOk] at h2 <;>
  simp [scrape_with_firecrawl, hr, scrapeAttempts, ho0, ho1, ho2, fetchesOf, sleepsOf,
    List.filterMap, FetchOutcome.isExn, FetchOutcome.failMsg]

/-- Witness for C1 (amended) at a concrete always-failing fetch service:
one unsuccessful response, then two raised exceptions. -/
theorem C1_retry_exhaustion_amended_witness :
    fetchesOf (scrape_with_firecrawl mixedFailures "u").1 = [0, 1, 2]
    ∧ sleepsOf (scrape_with_firecrawl mixedFailures "u").1
        = ((List.range 3).filter fun i => (mixedFailures i).isExn).map (fun i => 2 ^ i + 1)
    ∧ (scrape_with_firecrawl mixedFailures "u").2
        = Except.error (composeScrapeError "u" 3 (some ((mixedFailures 2).failMsg))) :=
  C1_retry_exhaustion_amended mixedFailures "u" (by intro i hi; interval_cases i <;> rfl)

/-- Claim C2: on every call of `_scrape_with_firecrawl`, the rate limiter's
wait appears exactly once in the event trace, and it is the very first
event — before the first fetch attempt, never inside the retry loop. -/
theorem C2_rate_limit_once (α : Type) (outcomes : Nat → FetchOutcome α) (url : String) :
    (scrape_with_firecrawl outcomes url).1.count Event.rateLimitWait = 1
    ∧ (scrape_with_firecrawl outcomes url).1.head? = some Event.rateLimitWait := by
  have hnm := rateLimitWait_not_mem_scrapeAttempts α outcomes (List.range 3) none
  constructor
  · simp [scrape_with_firecrawl, List.count_cons, List.count_eq_zero.2 hnm]
  · simp [scrape_with_firecrawl]

/-- Claim C3: for a limiter with a positive rate and burst size at least 1,
one `acquire` keeps the token count in `[0, burst_size]`: writing `refilled`
for the refill `min burst_size (tokens + elapsed * requests_per_second)`, a
call finding at least one refilled token consumes exactly one and does not
wait, and a call that must wait sleeps `(1 - refilled) / requests_per_second`
and leaves exactly 0 tokens — never a negative count. -/
theorem C3_token_bucket_invariant (s : RateLimiterState) (now : ℚ)
    (hrps : 0 < s.requests_per_second) (hburst : 1 ≤ s.burst_size)
    (htok0 : 0 ≤ s.tokens) (htok1 : s.tokens ≤ s.burst_size)
    (hnow : s.last_refill ≤ now) :
    0 ≤ (RateLimiter.acquire s now).state.tokens
    ∧ (RateLimiter.acquire s now).state.tokens ≤ s.burst_size
    ∧ (1 ≤ min s.burst_size (s.tokens + (now - s.last_refill) * s.requests_per_second) →
        (RateLimiter.acquire s now).state.tokens
          = min s.burst_size (s.tokens + (now - s.last_refill) * s.requests_per_second) - 1
        ∧ (RateLimiter.acquire s now).waited = none)
    ∧ (min s.burst_size (s.tokens + (now - s.last_refill) * s.requests_per_second) < 1 →
        (RateLimiter.acquire s now).state.tokens = 0
        ∧ (RateLimiter.acquire s now).waited
          = some ((1 - min s.burst_size (s.tokens + (now - s.last_refill) * s.requests_per_second))
              / s.requests_per_second)) := by
  have hrle : min s.burst_size (s.tokens + (now - s.last_refill) * s.requests_per_second)
      ≤ s.burst_size := min_le_left _ _
  have hr0 : 0 ≤ min s.burst_size (s.tokens + (now - s.last_refill) * s.requests_per_second) := by
    apply le_min (by linarith)
    have : 0 ≤ (now - s.last_refill) * s.requests_per_second :=
      mul_nonneg (by linarith) (le_of_lt hrps)
    linarith
  unfold RateLimiter.acquire
  dsimp only
  split_ifs with h
  · exact ⟨by dsimp only; exact le_refl 0, by dsimp only; linarith,
      fun h1 => absurd h1 (not_le.2 h), fun _ => ⟨rfl, rfl⟩⟩
  · have h1 := not_lt.1 h
    exact ⟨by dsimp only; linarith, by dsimp only; linarith,
      fun _ => ⟨rfl, rfl⟩, fun h2 => absurd h2 h⟩

/-- Witness for C3 at a concrete state: rate 2, burst 5, 5 tokens, no
elapsed time — the call consumes one token and does not wait. -/
theorem C3_token_bucket_invariant_witness :
    0 ≤ (RateLimiter.acquire ⟨2, 5, 5, 0⟩ 0).state.tokens
    ∧ (RateLimiter.acquire ⟨2, 5, 5, 0⟩ 0).state.tokens ≤ 5
    ∧ (1 ≤ min 5 ((5 : ℚ) + (0 - 0) * 2) →
        (RateLimiter.acquire ⟨2, 5, 5, 0⟩ 0).state.tokens = min 5 ((5 : ℚ) + (0 - 0) * 2) - 1
        ∧ (RateLimiter.acquire ⟨2, 5, 5, 0⟩ 0).waited = none)
    ∧ (min 5 ((5 : ℚ) + (0 - 0) * 2) < 1 →
        (RateLimiter.acquire ⟨2, 5, 5, 0⟩ 0).state.tokens = 0
        ∧ (RateLimiter.acquire ⟨2, 5, 5, 0⟩ 0).waited
          = some ((1 - min 5 ((5 : ℚ) + (0 - 0) * 2)) / 2)) :=
  C3_token_bucket_invariant ⟨2, 5, 5, 0⟩ 0 (by norm_num) (by norm_num) (by norm_num)
    (by norm_num) (by norm_num)

/-- Claim C4: an exception raised during the fetch or during extraction
(validation returns a boolean and raises nothing) never propagates out of
`crawl_product`: it is caught and converted into a `CrawlResult` with
`success = False` and `error_message` the exception's message. -/
theorem C4_no_exception_escapes (α : Type) (fetch : Except String α)
    (extract : α → Except String Product) (e : String)
    (h : fetch = Except.error e ∨ ∃ p, fetch = Except.ok p ∧ extract p = Except.error e) :
    crawl_product α fetch extract
      = { success := false, product := none, error_message := some e,
          retry_count := 0, firecrawl_data := none } := by
  rcases h with h | ⟨p, hf, he⟩
  · simp [crawl_product, crawl_product_body, h, Bind.bind, Except.bind, Pure.pure, Except.pure]
  · simp [crawl_product, crawl_product_body, hf, he, Bind.bind, Except.bind, Pure.pure,
      Except.pure]

/-- Witness for C4 at a concrete raising fetch. -/
theorem C4_no_exception_escapes_witness :
    crawl_product Unit (Except.error "boom") (fun _ => Except.ok ⟨"n", "u", none⟩)
      = { success := false, product := none, error_message := some "boom",
          retry_count := 0, firecrawl_data := none } :=
  C4_no_exception_escapes Unit (Except.error "boom") (fun _ => Except.ok ⟨"n", "u", none⟩)
    "boom" (Or.inl rfl)

/-- Claim C5: for any batch and any `max_concurrent ≥ 1`,
`crawl_multiple` returns exactly one `CrawlResult` per input URL — the
settled outcome of that URL's task — in input order, for every completion
schedule that completes every task; and on the empty list it returns the
empty list without consulting the crawl function at all. -/
theorem C5_batch_order_preserved (α : Type)
    (crawl : String → Except String (CrawlResult α)) (urls : List String)
    (max_concurrent : Nat) (schedule : List Nat)
    (hmc : 1 ≤ max_concurrent)
    (hsched : ∀ i, i < urls.length → i ∈ schedule) :
    crawl_multiple α crawl urls max_concurrent schedule
      = urls.map (fun u => settleGathered α (crawl u))
    ∧ (crawl_multiple α crawl urls max_concurrent schedule).length = urls.length
    ∧ (∀ crawl2 : String → Except String (CrawlResult α),
        crawl_multiple α crawl ([] : List String) max_concurrent schedule
          = crawl_multiple α crawl2 ([] : List String) max_concurrent schedule) := by
  have hmain : crawl_multiple α crawl urls max_concurrent schedule
      = urls.map (fun u => settleGathered α (crawl u)) := by
    unfold crawl_multiple
    dsimp only
    apply List.ext_getElem
    · simp
    · intro i h1 h2
      simp only [List.getElem_map, List.getElem_range]
      have hi : i < urls.length := by simpa using h1
      have hb := fillSlots_mem (gatherTask α crawl urls) schedule (fun _ => none) i
        (Or.inr (hsched i hi))
      rw [hb]
      simp [gatherTask, List.getElem?_eq_getElem hi]
  refine ⟨hmain, by rw [hmain]; simp, fun crawl2 => by simp [crawl_multiple]⟩

/-- Witness for C5 at a concrete two-URL batch whose second task completes
first (schedule `[1, 0]`), under `max_concurrent = 1`. -/
theorem C5_batch_order_preserved_witness :
    crawl_multiple Unit wBatchCrawl ["a", "b"] 1 [1, 0]
      = ["a", "b"].map (fun u => settleGathered Unit (wBatchCrawl u))
    ∧ (crawl_multiple Unit wBatchCrawl ["a", "b"] 1 [1, 0]).length = ["a", "b"].length
    ∧ (∀ crawl2 : String → Except String (CrawlResult Unit),
        crawl_multiple Unit wBatchCrawl ([] : List String) 1 [1, 0]
          = crawl_multiple Unit crawl2 ([] : List String) 1 [1, 0]) :=
  C5_batch_order_preserved Unit wBatchCrawl ["a", "b"] 1 [1, 0] (by norm_num)
    (by
      intro i hi
      have h2 : i < 2 := by simpa using hi
      simp only [List.mem_cons, List.mem_singleton]
      omega)

/-- Claim C6: storing a payload for a URL and reading it back at any time
within the time-to-live (with no intervening operation) returns exactly
that payload. -/
theorem C6_cache_round_trip (α : Type) (c : FirecrawlCache α) (url : String) (payload : α)
    (now now2 : ℚ) (h : now2 - now ≤ c.ttl) :
    ((FirecrawlCache.set c url payload now).get url now2).1 = some payload := by
  simp [FirecrawlCache.set, FirecrawlCache.get, not_lt.2 h]

/-- Witness for C6: write payload 7 at time 0, read it back at time 1 under
time-to-live 24. -/
theorem C6_cache_round_trip_witness :
    ((FirecrawlCache.set wCache "u" 7 0).get "u" 1).1 = some 7 :=
  C6_cache_round_trip Nat wCache "u" 7 0 1 (by norm_num [wCache])

/-- Claim C7: reading a URL whose stored entry is corrupt, or whose age
exceeds the time-to-live, reports absent, deletes the entry's file (the
post-state holds nothing at that URL's key), and a second read also
reports absent. -/
theorem C7_expired_or_corrupt_deleted (α : Type) (c : FirecrawlCache α) (url : String)
    (now : ℚ)
    (h : c.fs (c.cache_key url) = some CacheFile.corrupt
       ∨ ∃ u0 t0 p0, c.fs (c.cache_key url) = some (CacheFile.valid u0 t0 p0)
           ∧ c.ttl < now - t0) :
    (c.get url now).1 = none
    ∧ ((c.get url now).2.fs ((c.get url now).2.cache_key url) = none)
    ∧ (((c.get url now).2.get url now).1 = none) := by
  rcases h with h | ⟨u0, t0, p0, h, hexp⟩
  · simp [FirecrawlCache.get, h]
  · simp [FirecrawlCache.get, h, hexp]

/-- Witness for C7: an entry written at time 0 under time-to-live 24, read
at time 25. -/
theorem C7_expired_or_corrupt_deleted_witness :
    (wExpiredCache.get "u" 25).1 = none
    ∧ ((wExpiredCache.get "u" 25).2.fs ((wExpiredCache.get "u" 25).2.cache_key "u") = none)
    ∧ (((wExpiredCache.get "u" 25).2.get "u" 25).1 = none) :=
  C7_expired_or_corrupt_deleted Nat wExpiredCache "u" 25
    (Or.inr ⟨"u", 0, 7, by decide, by norm_num [wExpiredCache]⟩)

/-- Claim C8, as stated, fails on the code: at
`requests_per_second = -1 ≤ 0` both `RateLimiter.__init__` and
`DelayRateLimiter.__init__` return an instance rather than raising a
configuration error — neither constructor validates the rate. -/
theorem C8_no_rejection_counterexample :
    ((-1 : ℚ) ≤ 0)
    ∧ (∃ s, RateLimiter.init (-1) 5 0 = Except.ok s)
    ∧ (∃ s, DelayRateLimiter.init (-1) (1 / 2) = Except.ok s) :=
  ⟨by norm_num, ⟨_, rfl⟩, ⟨_, rfl⟩⟩

/-- Claim C8 (amended): constructing a rate limiter with
`requests_per_second ≤ 0` is NOT rejected — both `RateLimiter` and
`DelayRateLimiter` accept any configuration value without validation and
return an instance (whose `acquire` may then wait unboundedly); callers
must guard externally. -/
theorem C8_construction_accepts_amended (rps burst now delay : ℚ) (h : rps ≤ 0) :
    RateLimiter.init rps burst now = Except.ok ⟨rps, burst, burst, now⟩
    ∧ DelayRateLimiter.init rps delay = Except.ok ⟨rps, delay, 0⟩ :=
  ⟨rfl, rfl⟩

/-- Witness for C8 (amended) at `requests_per_second = -1`. -/
theorem C8_construction_accepts_amended_witness :
    RateLimiter.init (-1) 5 0 = Except.ok ⟨-1, 5, 5, 0⟩
    ∧ DelayRateLimiter.init (-1) (1 / 2) = Except.ok ⟨-1, 1 / 2, 0⟩ :=
  C8_construction_accepts_amended (-1) 5 0 (1 / 2) (by norm_num)

/-- Claim C9, as stated, fails on one clause: a validation-failure result
carries the expected message, and a fetch-failure result carries its own,
but the two are NOT distinct only by message — they also differ in
`firecrawl_data`, which the validation failure carries and the fetch
failure lacks. -/
theorem C9_only_by_message_counterexample :
    (crawl_product Unit (Except.ok ()) (fun _ => Except.ok ⟨" ", "u", none⟩)).error_message
      = some "Product data validation failed"
    ∧ (crawl_product Unit (Except.error "boom")
          (fun _ => Except.ok ⟨" ", "u", none⟩)).error_message
      = some "boom"
    ∧ ¬ ((crawl_product Unit (Except.ok ()) (fun _ => Except.ok ⟨" ", "u", none⟩)).firecrawl_data
       = (crawl_product Unit (Except.error "boom")
            (fun _ => Except.ok ⟨" ", "u", none⟩)).firecrawl_data) :=
  ⟨by decide, by decide, by decide⟩

/-- Claim C9 (amended): when the fetch succeeds and extraction returns a
product with an empty or whitespace-only name, an empty URL, or a present
negative price, `crawl_product` returns — not raises — a `CrawlResult` with
`success = False` and message "Product data validation failed"; it shares
the `CrawlResult` shape with a fetch failure but differs from one both in
its message and in carrying the fetch payload in `firecrawl_data`. -/
theorem C9_validation_failure_amended (α : Type) (fetch : Except String α)
    (extract : α → Except String Product) (p : α) (prod : Product)
    (hf : fetch = Except.ok p) (he : extract p = Except.ok prod)
    (hbad : pyStrip prod.name = "" ∨ prod.url = ""
          ∨ ∃ pr, prod.price = some pr ∧ pr < 0) :
    crawl_product α fetch extract
      = { success := false, product := none,
          error_message := some "Product data validation failed",
          retry_count := 0, firecrawl_data := some p } := by
  have hempty : prod.name = "" → pyStrip prod.name = "" := fun hn => by
    rw [hn]; rfl
  have hval : validate_product_data prod = false := by
    unfold validate_product_data
    rcases hbad with h | h | ⟨pr, hp, hneg⟩
    · simp [h]
    · by_cases hn : (prod.name == "" || pyStrip prod.name == "") = true <;>
        simp [hn, h]
    · by_cases hn : (prod.name == "" || pyStrip prod.name == "") = true <;>
      by_cases hu : (prod.url == "") = true <;>
        simp [hn, hu, hp, hneg, not_le.2 hneg]
  simp [crawl_product, crawl_product_body, hf, he, hval, Bind.bind, Except.bind, Pure.pure,
    Except.pure]

/-- Witness for C9 (amended): a successfully fetched page whose extraction
yields a whitespace-only product name. -/
theorem C9_validation_failure_amended_witness :
    crawl_product Unit (Except.ok ()) (fun _ => Except.ok ⟨" ", "u", none⟩)
      = { success := false, product := none,
          error_message := some "Product data validation failed",
          retry_count := 0, firecrawl_data := some () } :=
  C9_validation_failure_amended Unit (Except.ok ()) (fun _ => Except.ok ⟨" ", "u", none⟩)
    () ⟨" ", "u", none⟩ rfl rfl (Or.inl (by decide))

/-- Claim C10, as stated, fails on the code: when the fetch succeeds but
the extraction step raises, the exception path builds the failure
`CrawlResult` without `firecrawl_data` — so `firecrawl_data` is `none` at
an input where the fetch itself succeeded. -/
theorem C10_extraction_failure_counterexample :
    ¬ (((crawl_product Unit (Except.ok ()) (fun _ => Except.error "boom")).firecrawl_data
          ≠ none)
       ↔ (∃ p : Unit, (Except.ok () : Except String Unit) = Except.ok p)) := by
  intro hiff
  exact (hiff.2 ⟨(), rfl⟩) rfl

/-- Claim C10 (amended): the `CrawlResult` of `crawl_product` has
`firecrawl_data` non-`None` exactly when the fetch AND the extraction both
completed without raising: success results and validation-failure results
carry the raw fetch payload, while both fetch-failure and
extraction-failure results have `firecrawl_data = None`. -/
theorem C10_firecrawl_data_amended (α : Type) (fetch : Except String α)
    (extract : α → Except String Product) :
    ((crawl_product α fetch extract).firecrawl_data ≠ none
      ↔ ∃ p prod, fetch = Except.ok p ∧ extract p = Except.ok prod)
    ∧ (∀ p prod, fetch = Except.ok p → extract p = Except.ok prod →
        (crawl_product α fetch extract).firecrawl_data = some p) := by
  constructor
  · cases hf : fetch with
    | error e =>
      simp [crawl_product, crawl_product_body, hf, Bind.bind, Except.bind, Pure.pure,
        Except.pure]
    | ok p =>
      cases he : extract p with
      | error e =>
        simp [crawl_product, crawl_product_body, hf, he, Bind.bind, Except.bind, Pure.pure,
          Except.pure]
      | ok prod =>
        by_cases hv : validate_product_data prod <;>
          simp [crawl_product, crawl_product_body, hf, he, hv, Bind.bind, Except.bind,
            Pure.pure, Except.pure]
  · intro p prod hf he
    by_cases hv : validate_product_data prod <;>
      simp [crawl_product, crawl_product_body, hf, he, hv, Bind.bind, Except.bind, Pure.pure,
        Except.pure]

end PriceScraper
